import Mathlib

/-!
Verification of the deck-generation pipeline (src/deck-gen.py).

The Python program is dynamically typed and effectful.  We embed it shallowly:

* Python/JSON values become the inductive `JValue`; the dynamic operations the
  source performs on them (`dict.get`, `in`, subscripting, truthiness, `for`
  iteration) are modelled by total Lean functions into `Except Unit _`, where
  `.error ()` stands for an uncaught Python exception (AttributeError,
  TypeError, KeyError, IndexError).
* External boundaries — HTTP calls (`requests`), the generative model
  (`genai`), HTML parsing (BeautifulSoup), image decoding (PIL), JSON parsing
  (`json.loads`) and pptx serialization (`python-pptx`) — are fields of a
  `PipelineEnv` record; a theorem quantified over the environment holds for
  every behaviour of those opaque collaborators.
* A rendered slide records the layout chosen, the title/subtitle texts, the
  bullet paragraphs (with font size, indent level and spacing, mirroring the
  `Pt(...)` calls of the source) and the embedded image stream, if any.
-/

inductive JValue where
  | null : JValue
  | bool : Bool → JValue
  | num : Int → JValue
  | str : String → JValue
  | arr : List JValue → JValue
  | obj : List (String × JValue) → JValue

/-- First-match association-list lookup; `JValue.obj` models a Python dict,
whose keys are unique, so the first binding is the binding. -/
def lookupKV : List (String × JValue) → String → Option JValue
  | [], _ => none
  | (k, v) :: rest, key => if k = key then some v else lookupKV rest key

/-- Python truthiness (`if x:`) for JSON-shaped values. -/
def JValue.truthy : JValue → Bool
  | .null => false
  | .bool b => b
  | .num n => n != 0
  | .str s => s != ""
  | .arr xs => !xs.isEmpty
  | .obj kvs => !kvs.isEmpty

def JValue.isArr : JValue → Bool
  | .arr _ => true
  | _ => false

/-- Python `x.get(key)`: `AttributeError` unless `x` is a dict. -/
def pyGet (v : JValue) (k : String) : Except Unit (Option JValue) :=
  match v with
  | .obj kvs => .ok (lookupKV kvs k)
  | _ => .error ()

/-- Python `x.get(key, default)`. -/
def pyGetD (v : JValue) (k : String) (d : JValue) : Except Unit JValue :=
  match v with
  | .obj kvs => .ok ((lookupKV kvs k).getD d)
  | _ => .error ()

/-- If `pat` is a leading run of `s`, return the remainder. -/
def stripLead : List Char → List Char → Option (List Char)
  | [], s => some s
  | _ :: _, [] => none
  | p :: ps, c :: cs => if p = c then stripLead ps cs else none

/-- Whether `needle` occurs as a contiguous run inside `hay`
(Python `needle in hay` for strings). -/
def containsSeq (needle : List Char) : List Char → Bool
  | [] => (stripLead needle []).isSome
  | c :: cs => (stripLead needle (c :: cs)).isSome || containsSeq needle cs

/-- Python `key in x` for a string key: key membership for dicts, element
equality for lists, substring test for strings, `TypeError` otherwise. -/
def pyContains (v : JValue) (k : String) : Except Unit Bool :=
  match v with
  | .obj kvs => .ok (lookupKV kvs k).isSome
  | .arr xs => .ok (xs.any fun x => match x with | .str s => s == k | _ => false)
  | .str s => .ok (containsSeq k.data s.data)
  | _ => .error ()

/-- Python subscripting `v[key]` for the shapes the source uses
(dict by string key, list/str by integer index, negative indices from the
end); failures (`KeyError`, `IndexError`, `TypeError`) are `.error ()`. -/
def pySubscript (v : JValue) (key : JValue) : Except Unit JValue :=
  match v, key with
  | .obj kvs, .str k =>
      (match lookupKV kvs k with
       | some x => .ok x
       | none => .error ())
  | .arr xs, .num i =>
      let j : Int := if i < 0 then i + xs.length else i
      if 0 ≤ j ∧ j < (xs.length : Int) then .ok (xs.getD j.toNat .null) else .error ()
  | .str s, .num i =>
      let j : Int := if i < 0 then i + s.length else i
      if 0 ≤ j ∧ j < (s.length : Int) then .ok (.str ⟨[s.data.getD j.toNat ' ']⟩)
      else .error ()
  | _, _ => .error ()

/-- Python `for x in v`: lists yield elements, strings yield one-character
strings, dicts yield their keys; other values raise `TypeError`. -/
def pyIter : JValue → Except Unit (List JValue)
  | .arr xs => .ok xs
  | .str s => .ok (s.data.map fun c => .str ⟨[c]⟩)
  | .obj kvs => .ok (kvs.map fun kv => .str kv.fst)
  | _ => .error ()

/-- Coercion demanded where the source hands a value to an API that needs a
string (`urllib.parse.quote`, `requests.get`, `str.join`); non-strings
raise there, which the surrounding `try` blocks turn into a failure. -/
def asStr : JValue → Except Unit String
  | .str s => .ok s
  | _ => .error ()

/-- Elementwise evaluation of a Python list comprehension whose body may
raise: the first raised element aborts the whole comprehension. -/
def mapExcept (f : α → Except Unit β) : List α → Except Unit (List β)
  | [] => .ok []
  | a :: l =>
    match f a with
    | .error e => .error e
    | .ok b =>
      match mapExcept f l with
      | .error e => .error e
      | .ok bl => .ok (b :: bl)

/-- Python `str.strip()`: drop leading and trailing whitespace. -/
def pyStrip (s : String) : String :=
  ⟨((s.data.dropWhile Char.isWhitespace).reverse.dropWhile Char.isWhitespace).reverse⟩

/-- Python `sep.join(parts)`. -/
def pyJoin (sep : String) : List String → String
  | [] => ""
  | [s] => s
  | s :: rest => s ++ sep ++ pyJoin sep rest

/-- Left-to-right, non-overlapping replacement pass over a character list.
The fuel is an upper bound on the number of steps; each step consumes at
least one character, so fuel equal to the input length is exact. -/
def replaceFuel (pat rep : List Char) : Nat → List Char → List Char
  | _, [] => []
  | 0, s => s
  | fuel + 1, c :: cs =>
    match stripLead pat (c :: cs) with
    | some rest => rep ++ replaceFuel pat rep fuel rest
    | none => c :: replaceFuel pat rep fuel cs

/-- Python `s.replace(pat, rep)`; an empty pattern inserts `rep` at every
position, as Python does. -/
def pyReplace (s pat rep : String) : String :=
  if pat.data.isEmpty then
    ⟨rep.data ++ (s.data.map fun c => c :: rep.data).flatten⟩
  else ⟨replaceFuel pat.data rep.data s.data.length s.data⟩

/-- Fence stripping applied to a model reply, exactly
`response.text.strip().replace("```json", "").replace("```", "")`
(lines 130 and 156 of the source). -/
def cleanResponse (t : String) : String :=
  pyReplace (pyReplace (pyStrip t) "```json" "") "```" ""

/-- Slide layouts used by the source: `prs.slide_layouts[0]` (title),
`[1]` (title and content), `[3]` (two content). -/
inductive Layout where
  | titleLayout : Layout
  | titleAndContent : Layout
  | twoContent : Layout

/-- One bullet paragraph added to a text frame: the source sets `p.text`
(the python-pptx text setter accepts only `str` and raises on any other
value), `p.level = 0`, `p.space_after = Pt(8)` and
`p.font.size = Pt(15 | 18)`. -/
structure Bullet where
  text : String
  level : Nat
  spaceAfterPt : Nat
  fontSizePt : Nat

/-- One rendered slide of the deck; title and subtitle are the strings the
pptx text setters accepted. -/
structure RenderedSlide where
  layout : Layout
  title : String
  subtitle : Option String
  bullets : List Bullet
  image : Option (List Nat)

/-- The assembled deck: its rendered slides plus the byte stream produced by
`prs.save(file_stream)` at the end of `create_powerpoint_deck`. -/
structure Deck where
  slides : List RenderedSlide
  stream : List Nat

/-- The opaque collaborators of one pipeline run.  `Except Unit _` results
model a raised exception in the external call; `Option String` responses
model the generative model's reply text (or a raised call). -/
structure PipelineEnv where
  /-- DuckDuckGo HTML search: the snippet texts extracted by BeautifulSoup,
  or a raised request/HTTP error. -/
  ddgResp : String → Except Unit (List String)
  /-- Whether the Google keys still hold their placeholder values
  (the `"YOUR_GOOGLE_SEARCH_API_KEY" in ... or "YOUR_CSE_ID" in ...` test). -/
  googleKeysPlaceholder : Bool
  /-- Google Custom Search: parsed JSON body, or a raised request/HTTP/parse
  error. -/
  googleResp : String → Except Unit JValue
  /-- Reply text of the content-generation call, `none` when it raises. -/
  genContentResp : Option String
  /-- Reply text of the image-query enrichment call, `none` when it raises. -/
  genEnrichResp : Option String
  /-- Result of `json.loads`: `none` when it raises `JSONDecodeError`. -/
  jsonParse : String → Option JValue
  /-- Google image search: parsed JSON body, or a raised error. -/
  imgSearchResp : String → Except Unit JValue
  /-- Image download: response bytes, or a raised request/HTTP error. -/
  imgDownload : String → Except Unit (List Nat)
  /-- PIL decode plus PNG re-encode of downloaded bytes, or a raised error. -/
  imgDecodeEncode : List Nat → Except Unit (List Nat)
  /-- Serialization `prs.save`: pptx encoding of the rendered slides. -/
  savePptx : List RenderedSlide → List Nat
  /-- Whether the final `open(...).write(...)` raises. -/
  writeFails : Bool

/-- ResearchAgent._search_duckduckgo (lines 34-47): on any exception return
`""`; otherwise `" ".join(snippets[:3]) if snippets else ""`. -/
def search_duckduckgo (env : PipelineEnv) (topic : String) : String :=
  match env.ddgResp topic with
  | .error _ => ""
  | .ok snippets => if snippets.isEmpty then "" else pyJoin " " (snippets.take 3)

/-- Body of the `try` block of ResearchAgent._search_google (lines 54-61):
`snippets = [item.get('snippet', '') for item in search_results.get('items', [])]`
then `" ".join(snippets[:3]) if snippets else ""`; every raised step is an
`.error`. -/
def googleTry (env : PipelineEnv) (topic : String) : Except Unit String :=
  match env.googleResp topic with
  | .error e => .error e
  | .ok search_results =>
    match pyGetD search_results "items" (.arr []) with
    | .error e => .error e
    | .ok itemsV =>
      match pyIter itemsV with
      | .error e => .error e
      | .ok items =>
        match mapExcept (fun item => pyGetD item "snippet" (.str "")) items with
        | .error e => .error e
        | .ok snippets =>
          if snippets.isEmpty then .ok ""
          else
            match mapExcept asStr (snippets.take 3) with
            | .error e => .error e
            | .ok strs => .ok (pyJoin " " strs)

/-- ResearchAgent._search_google (lines 49-64): skipped when the keys are
placeholders, `""` on any exception. -/
def search_google (env : PipelineEnv) (topic : String) : String :=
  if env.googleKeysPlaceholder then ""
  else
    match googleTry env topic with
    | .ok s => s
    | .error _ => ""

/-- ResearchAgent.search_web_for_topic (lines 66-78). -/
def search_web_for_topic (env : PipelineEnv) (topic : String) : String :=
  let ddg_context := search_duckduckgo env topic
  let google_context := search_google env topic
  let combined_context := pyStrip (ddg_context ++ " " ++ google_context)
  if combined_context = "" then "No specific web context found." else combined_context

/-- OrchestratorAgent.create_presentation_plan (lines 83-98): a fixed literal
depending only on `topic`; `web_context` is accepted and ignored. -/
def create_presentation_plan (topic web_context : String) : JValue :=
  .obj [("slides", .arr
    [ .obj [("type", .str "title_slide"),
            ("purpose", .str "A compelling title for the presentation.")],
      .obj [("type", .str "overview_slide"),
            ("purpose", .str "An overview describing key talking points.")],
      .obj [("type", .str "key_point_slide"),
            ("purpose", .str ("The first key point or trend about " ++ topic ++ "."))],
      .obj [("type", .str "key_point_slide"),
            ("purpose", .str ("The second key point or argument about " ++ topic ++ "."))],
      .obj [("type", .str "key_point_slide"),
            ("purpose", .str ("The third key point or trend about " ++ topic ++ "."))],
      .obj [("type", .str "key_point_slide"),
            ("purpose", .str ("The fourth key point or argument about " ++ topic ++ "."))],
      .obj [("type", .str "conclusion_slide"),
            ("purpose", .str "Give Concluding Points.")]])]

/-- ContentStrategistAgent.generate_presentation_content (lines 102-135): on
a raised call or a `json.loads` failure the `except` branch returns `None`;
otherwise the parsed JSON of the fence-stripped reply. -/
def generate_presentation_content (env : PipelineEnv) (topic web_context : String)
    (plan : JValue) : Option JValue :=
  match env.genContentResp with
  | none => none
  | some t => env.jsonParse (cleanResponse t)

/-- VisualAssetAgent.add_image_queries_to_content (lines 139-162): on a
raised call or a `json.loads` failure return the original `content`;
otherwise the parsed JSON of the fence-stripped reply. -/
def add_image_queries_to_content (env : PipelineEnv) (content : JValue) : JValue :=
  match env.genEnrichResp with
  | none => content
  | some t =>
    match env.jsonParse (cleanResponse t) with
    | none => content
    | some v => v

/-- Body of the `try` block of PowerPointAssemblyAgent._get_image_for_slide
(lines 173-201): URL-quote the query (raises on non-strings), search, return
`None` when `items` is missing or falsy, take `items[0]['link']`, download,
decode and re-encode to PNG. -/
def imgTry (env : PipelineEnv) (query : JValue) : Except Unit (Option (List Nat)) :=
  match asStr query with
  | .error e => .error e
  | .ok q =>
    match env.imgSearchResp q with
    | .error e => .error e
    | .ok search_results =>
      match pyContains search_results "items" with
      | .error e => .error e
      | .ok hasItems =>
        if hasItems then
          match pySubscript search_results (.str "items") with
          | .error e => .error e
          | .ok items =>
            if items.truthy then
              match pySubscript items (.num 0) with
              | .error e => .error e
              | .ok first =>
                match pySubscript first (.str "link") with
                | .error e => .error e
                | .ok link =>
                  match asStr link with
                  | .error e => .error e
                  | .ok url =>
                    match env.imgDownload url with
                    | .error e => .error e
                    | .ok bytes =>
                      match env.imgDecodeEncode bytes with
                      | .error e => .error e
                      | .ok png => .ok (some png)
            else .ok none
        else .ok none

/-- PowerPointAssemblyAgent._get_image_for_slide (lines 166-205): `None`
when the keys are placeholders, `None` on any exception in the `try` block,
`None` when no item is found, otherwise the converted PNG stream. -/
def get_image_for_slide (env : PipelineEnv) (query : JValue) : Option (List Nat) :=
  if env.googleKeysPlaceholder then none
  else
    match imgTry env query with
    | .ok r => r
    | .error _ => none

/-- Bullet paragraphs added by the `for point in points` loops: each with
`level = 0`, `space_after = Pt(8)` and the branch's font size. -/
def mkBullets (size : Nat) (pts : List String) : List Bullet :=
  pts.map fun p => { text := p, level := 0, spaceAfterPt := 8, fontSizePt := size }

/-- One iteration of the slide loop of create_powerpoint_deck (lines
216-286).  `slide_data.get(...)` raises `AttributeError` unless the entry is
a dict; a recognized `type` renders one slide, anything else renders none.
The python-pptx text setters (`slide.shapes.title.text = title` and
`p.text = point`) accept only `str` and raise on any other value, so a
non-string title or a non-string point is an uncaught exception of the
loop, modelled with `asStr`.  The `key_point_slide` branch resolves
`slide_data.get("image_query", topic)` and fetches the image before any
text is placed, then picks the two-content layout when an image stream is
obtained, else the title-and-content layout with 18pt bullets. -/
def renderSlide (env : PipelineEnv) (topic : String) (slide_data : JValue) :
    Except Unit (Option RenderedSlide) :=
  match slide_data with
  | .obj kvs =>
    let slide_type := lookupKV kvs "type"
    let title := (lookupKV kvs "title").getD (.str "Untitled Slide")
    let points := (lookupKV kvs "points").getD (.arr [])
    match slide_type with
    | some (.str t) =>
      if t = "title_slide" then
        match asStr title with
        | .error e => .error e
        | .ok titleS =>
          .ok (some { layout := .titleLayout, title := titleS,
                      subtitle := some ("A Presentation on " ++ topic),
                      bullets := [], image := none })
      else if t = "overview_slide" ∨ t = "conclusion_slide" then
        match asStr title with
        | .error e => .error e
        | .ok titleS =>
          match pyIter points with
          | .error e => .error e
          | .ok pts =>
            match mapExcept asStr pts with
            | .error e => .error e
            | .ok ptsS =>
              .ok (some { layout := .titleAndContent, title := titleS,
                          subtitle := none, bullets := mkBullets 15 ptsS,
                          image := none })
      else if t = "key_point_slide" then
        let image_query := (lookupKV kvs "image_query").getD (.str topic)
        match get_image_for_slide env image_query with
        | some png =>
          match asStr title with
          | .error e => .error e
          | .ok titleS =>
            match pyIter points with
            | .error e => .error e
            | .ok pts =>
              match mapExcept asStr pts with
              | .error e => .error e
              | .ok ptsS =>
                .ok (some { layout := .twoContent, title := titleS,
                            subtitle := none, bullets := mkBullets 18 ptsS,
                            image := some png })
        | none =>
          match asStr title with
          | .error e => .error e
          | .ok titleS =>
            match pyIter points with
            | .error e => .error e
            | .ok pts =>
              match mapExcept asStr pts with
              | .error e => .error e
              | .ok ptsS =>
                .ok (some { layout := .titleAndContent, title := titleS,
                            subtitle := none, bullets := mkBullets 18 ptsS,
                            image := none })
      else .ok none
    | _ => .ok none
  | _ => .error ()

/-- The slide loop of create_powerpoint_deck: rendered slides accumulate in
input order; an uncaught exception aborts the whole call. -/
def buildSlides (env : PipelineEnv) (topic : String) :
    List JValue → Except Unit (List RenderedSlide)
  | [] => .ok []
  | e :: es =>
    match renderSlide env topic e with
    | .error err => .error err
    | .ok r =>
      match buildSlides env topic es with
      | .error err => .error err
      | .ok rest => .ok (match r with | some s => s :: rest | none => rest)

/-- PowerPointAssemblyAgent.create_powerpoint_deck (lines 208-292):
`if 'slides' not in content or not isinstance(content['slides'], list):
return None`; otherwise render the loop and serialize once at the end
(`prs.save(file_stream)`).  `.ok none` is the Python `None` return,
`.error ()` an uncaught exception. -/
def create_powerpoint_deck (env : PipelineEnv) (content : JValue) (topic : String) :
    Except Unit (Option Deck) :=
  match pyContains content "slides" with
  | .error e => .error e
  | .ok hasSlides =>
    if hasSlides then
      match pySubscript content (.str "slides") with
      | .error e => .error e
      | .ok slidesV =>
        match slidesV with
        | .arr entries =>
          (match buildSlides env topic entries with
           | .error e => .error e
           | .ok slides => .ok (some { slides := slides, stream := env.savePptx slides }))
        | _ => .ok none
    else .ok none

/-- Tail of the `__main__` block (lines 331-340): write the stream when the
assembler returned one (the write itself may raise and is then only
reported); write nothing when the assembler returned `None`.  The result is
the bytes of the artifact file, `none` when no file is produced. -/
def mainSaveStep (writeFails : Bool) (ppt_stream : Option Deck) : Option (List Nat) :=
  match ppt_stream with
  | some d => if writeFails then none else some d.stream
  | none => none

/-- The `__main__` orchestration (lines 296-340) for one topic: research,
plan (always truthy, so its guard never exits), content generation with its
truthiness guard, enrichment, assembly, save.  `.error ()` is an uncaught
exception escaping the script; `.ok none` a run that exits or ends with no
artifact; `.ok (some bytes)` a written artifact. -/
def mainRun (env : PipelineEnv) (topic : String) : Except Unit (Option (List Nat)) :=
  let web_context := search_web_for_topic env topic
  let plan := create_presentation_plan topic web_context
  if plan.truthy then
    match generate_presentation_content env topic web_context plan with
    | none => .ok none
    | some initial_content =>
      if initial_content.truthy then
        let enriched := add_image_queries_to_content env initial_content
        match create_powerpoint_deck env enriched topic with
        | .error e => .error e
        | .ok ppt_stream => .ok (mainSaveStep env.writeFails ppt_stream)
      else .ok none
  else .ok none

/-- Value of the `type` field of a slide entry, when the entry is a dict. -/
def entryTypeOf : JValue → Option JValue
  | .obj kvs => lookupKV kvs "type"
  | _ => none

/-- Value of the `purpose` field of a slide entry, when the entry is a dict. -/
def entryPurposeOf : JValue → Option JValue
  | .obj kvs => lookupKV kvs "purpose"
  | _ => none

/-- Whether a slide entry carries one of the four `type` values the assembly
loop recognizes. -/
def isRecognized (e : JValue) : Bool :=
  match entryTypeOf e with
  | some (.str t) =>
    if t = "title_slide" ∨ t = "overview_slide" ∨ t = "conclusion_slide"
        ∨ t = "key_point_slide" then true else false
  | _ => false

/-- Whether a value is accepted by the python-pptx `.text` setter: only
strings are. -/
def isStrJ : JValue → Bool
  | .str _ => true
  | _ => false

/-- Whether a `points` value can serve the bullet loop without raising: it
must be iterable and every iterated element must be a string (iterating a
string yields one-character strings and iterating a dict yields its string
keys, so only a list can contribute a non-string element). -/
def pointsOk : JValue → Bool
  | .arr xs => xs.all isStrJ
  | .str _ => true
  | .obj _ => true
  | _ => false

/-- Whether the entry's `title` value, if present, is a string (the default
`Untitled Slide` used when it is absent is one). -/
def titleOk (kvs : List (String × JValue)) : Bool :=
  match lookupKV kvs "title" with
  | none => true
  | some v => isStrJ v

/-- Well-formedness of one slide entry: it is a dict; when its `type` is
recognized its `title` (if present) is a string, and when its `type` is one
of the bulleted kinds its `points` value (if present) is iterable with only
string elements — exactly the conditions under which the loop body raises
no exception. -/
def entryOk (e : JValue) : Bool :=
  match e with
  | .obj kvs =>
    (match lookupKV kvs "type" with
     | some (.str t) =>
       if t = "title_slide" then titleOk kvs
       else if t = "overview_slide" ∨ t = "conclusion_slide"
           ∨ t = "key_point_slide" then
         titleOk kvs &&
           (match lookupKV kvs "points" with
            | none => true
            | some v => pointsOk v)
       else true
     | _ => true)
  | _ => false

/-- The slide (if any) an entry contributes when its rendering step does not
raise. -/
def renderedSlideOpt (env : PipelineEnv) (topic : String) (e : JValue) :
    Option RenderedSlide :=
  match renderSlide env topic e with
  | .ok r => r
  | .error _ => none

theorem mapExcept_asStr_exists (l : List JValue)
    (h : ∀ x ∈ l, ∃ s, x = JValue.str s) :
    ∃ ls, mapExcept asStr l = .ok ls := by
  induction l with
  | nil => exact ⟨[], rfl⟩
  | cons a rest ih =>
    obtain ⟨s, rfl⟩ := h a (by simp)
    obtain ⟨ls, hls⟩ := ih (fun x hx => h x (by simp [hx]))
    exact ⟨s :: ls, by simp [mapExcept, asStr, hls]⟩

/-- A `points` value passing `pointsOk` feeds the bullet loop a list of
values the text setter accepts. -/
theorem pointsOk_iter {v : JValue} (h : pointsOk v = true) :
    ∃ l ls, pyIter v = .ok l ∧ mapExcept asStr l = .ok ls := by
  cases v with
  | null => simp [pointsOk] at h
  | bool b => simp [pointsOk] at h
  | num n => simp [pointsOk] at h
  | str s =>
    have hall : ∀ x ∈ (s.data.map fun c => JValue.str ⟨[c]⟩),
        ∃ t2, x = JValue.str t2 := by
      intro x hx
      simp only [List.mem_map] at hx
      obtain ⟨c, _, rfl⟩ := hx
      exact ⟨⟨[c]⟩, rfl⟩
    obtain ⟨ls, hls⟩ := mapExcept_asStr_exists _ hall
    exact ⟨_, ls, rfl, hls⟩
  | arr xs =>
    have hall : ∀ x ∈ xs, ∃ t2, x = JValue.str t2 := by
      intro x hx
      simp only [pointsOk, List.all_eq_true] at h
      have h3 := h x hx
      cases x with
      | str s => exact ⟨s, rfl⟩
      | null => simp [isStrJ] at h3
      | bool b => simp [isStrJ] at h3
      | num n => simp [isStrJ] at h3
      | arr a => simp [isStrJ] at h3
      | obj o => simp [isStrJ] at h3
    obtain ⟨ls, hls⟩ := mapExcept_asStr_exists _ hall
    exact ⟨xs, ls, rfl, hls⟩
  | obj kvs =>
    have hall : ∀ x ∈ (kvs.map fun kv => JValue.str kv.fst),
        ∃ t2, x = JValue.str t2 := by
      intro x hx
      simp only [List.mem_map] at hx
      obtain ⟨kv, _, rfl⟩ := hx
      exact ⟨kv.fst, rfl⟩
    obtain ⟨ls, hls⟩ := mapExcept_asStr_exists _ hall
    exact ⟨_, ls, rfl, hls⟩

/-- A well-formed recognized entry hands the title setter a string. -/
theorem entryOk_title_str (kvs : List (String × JValue)) (t : String)
    (ht : lookupKV kvs "type" = some (.str t))
    (hrec : t = "title_slide" ∨ t = "overview_slide" ∨ t = "conclusion_slide"
            ∨ t = "key_point_slide")
    (hok : entryOk (.obj kvs) = true) :
    ∃ ts, asStr ((lookupKV kvs "title").getD (.str "Untitled Slide")) = .ok ts := by
  have htld : titleOk kvs = true := by
    simp only [entryOk, ht] at hok
    rcases hrec with rfl | rfl | rfl | rfl
    · rw [if_pos rfl] at hok
      exact hok
    · rw [if_neg (by decide), if_pos (by decide), Bool.and_eq_true] at hok
      exact hok.1
    · rw [if_neg (by decide), if_pos (by decide), Bool.and_eq_true] at hok
      exact hok.1
    · rw [if_neg (by decide), if_pos (by decide), Bool.and_eq_true] at hok
      exact hok.1
  cases hl : lookupKV kvs "title" with
  | none => exact ⟨"Untitled Slide", rfl⟩
  | some v =>
    have hv : isStrJ v = true := by
      simp only [titleOk, hl] at htld
      exact htld
    cases v with
    | str s => exact ⟨s, rfl⟩
    | null => simp [isStrJ] at hv
    | bool b => simp [isStrJ] at hv
    | num n => simp [isStrJ] at hv
    | arr a => simp [isStrJ] at hv
    | obj o => simp [isStrJ] at hv

/-- A well-formed bulleted entry feeds the bullet loop a list of values the
text setter accepts. -/
theorem entryOk_points_iter (kvs : List (String × JValue)) (t : String)
    (ht : lookupKV kvs "type" = some (.str t))
    (hb : t = "overview_slide" ∨ t = "conclusion_slide" ∨ t = "key_point_slide")
    (hok : entryOk (.obj kvs) = true) :
    ∃ l ls, pyIter ((lookupKV kvs "points").getD (.arr [])) = .ok l ∧
      mapExcept asStr l = .ok ls := by
  have hpo : (match lookupKV kvs "points" with
              | none => true
              | some v => pointsOk v) = true := by
    simp only [entryOk, ht] at hok
    rcases hb with rfl | rfl | rfl
    · rw [if_neg (by decide), if_pos (by decide), Bool.and_eq_true] at hok
      exact hok.2
    · rw [if_neg (by decide), if_pos (by decide), Bool.and_eq_true] at hok
      exact hok.2
    · rw [if_neg (by decide), if_pos (by decide), Bool.and_eq_true] at hok
      exact hok.2
  cases hp : lookupKV kvs "points" with
  | none => exact ⟨[], [], rfl, rfl⟩
  | some v =>
    simp only [hp] at hpo
    obtain ⟨l, ls, hl, hls⟩ := pointsOk_iter hpo
    exact ⟨l, ls, hl, hls⟩

/-- The rendering step on a `title_slide` entry whose title the text setter
accepts. -/
theorem renderSlide_title (env : PipelineEnv) (topic : String)
    (kvs : List (String × JValue))
    (ht : lookupKV kvs "type" = some (.str "title_slide"))
    (ts : String)
    (hts : asStr ((lookupKV kvs "title").getD (.str "Untitled Slide")) = .ok ts) :
    renderSlide env topic (.obj kvs) = .ok (some
      { layout := .titleLayout, title := ts,
        subtitle := some ("A Presentation on " ++ topic),
        bullets := [], image := none }) := by
  simp [renderSlide, ht, hts]

/-- The rendering step on an `overview_slide` or `conclusion_slide` entry
whose title and points the text setters accept. -/
theorem renderSlide_bulleted (env : PipelineEnv) (topic : String)
    (kvs : List (String × JValue)) (t : String)
    (ht : lookupKV kvs "type" = some (.str t))
    (hb : t = "overview_slide" ∨ t = "conclusion_slide")
    (ts : String)
    (hts : asStr ((lookupKV kvs "title").getD (.str "Untitled Slide")) = .ok ts)
    (l : List JValue) (ls : List String)
    (hl : pyIter ((lookupKV kvs "points").getD (.arr [])) = .ok l)
    (hls : mapExcept asStr l = .ok ls) :
    renderSlide env topic (.obj kvs) = .ok (some
      { layout := .titleAndContent, title := ts, subtitle := none,
        bullets := mkBullets 15 ls, image := none }) := by
  rcases hb with rfl | rfl
  · simp only [renderSlide, ht]
    rw [if_neg (by decide), if_pos (by decide)]
    simp only [hts, hl, hls]
  · simp only [renderSlide, ht]
    rw [if_neg (by decide), if_pos (by decide)]
    simp only [hts, hl, hls]

/-- The rendering step on a `key_point_slide` entry whose title and points
the text setters accept: the image resolved from
`slide_data.get("image_query", topic)` picks the layout. -/
theorem renderSlide_keypoint (env : PipelineEnv) (topic : String)
    (kvs : List (String × JValue))
    (ht : lookupKV kvs "type" = some (.str "key_point_slide"))
    (ts : String)
    (hts : asStr ((lookupKV kvs "title").getD (.str "Untitled Slide")) = .ok ts)
    (l : List JValue) (ls : List String)
    (hl : pyIter ((lookupKV kvs "points").getD (.arr [])) = .ok l)
    (hls : mapExcept asStr l = .ok ls) :
    renderSlide env topic (.obj kvs) = .ok (some
      (match get_image_for_slide env ((lookupKV kvs "image_query").getD (.str topic)) with
       | some png =>
          { layout := .twoContent, title := ts, subtitle := none,
            bullets := mkBullets 18 ls, image := some png }
       | none =>
          { layout := .titleAndContent, title := ts, subtitle := none,
            bullets := mkBullets 18 ls, image := none })) := by
  simp only [renderSlide, ht]
  rw [if_neg (by decide), if_neg (by decide), if_pos (by decide)]
  cases himg : get_image_for_slide env ((lookupKV kvs "image_query").getD (.str topic)) with
  | some png => simp only [hts, hl, hls]
  | none => simp only [hts, hl, hls]

/-- A well-formed entry never makes the rendering step raise, and it
contributes a slide exactly when its type is recognized. -/
theorem renderSlide_ok_of_entryOk (env : PipelineEnv) (topic : String)
    (e : JValue) (hok : entryOk e = true) :
    ∃ r : Option RenderedSlide, renderSlide env topic e = .ok r ∧
      r.isSome = isRecognized e := by
  cases e with
  | null => simp [entryOk] at hok
  | bool b => simp [entryOk] at hok
  | num n => simp [entryOk] at hok
  | str s => simp [entryOk] at hok
  | arr xs => simp [entryOk] at hok
  | obj kvs =>
    cases htype : lookupKV kvs "type" with
    | none =>
      refine ⟨none, ?_, ?_⟩
      · simp [renderSlide, htype]
      · simp [isRecognized, entryTypeOf, htype]
    | some tv =>
      cases tv with
      | null =>
        exact ⟨none, by simp [renderSlide, htype], by simp [isRecognized, entryTypeOf, htype]⟩
      | bool b =>
        exact ⟨none, by simp [renderSlide, htype], by simp [isRecognized, entryTypeOf, htype]⟩
      | num n =>
        exact ⟨none, by simp [renderSlide, htype], by simp [isRecognized, entryTypeOf, htype]⟩
      | arr xs =>
        exact ⟨none, by simp [renderSlide, htype], by simp [isRecognized, entryTypeOf, htype]⟩
      | obj o =>
        exact ⟨none, by simp [renderSlide, htype], by simp [isRecognized, entryTypeOf, htype]⟩
      | str t =>
        by_cases h1 : t = "title_slide"
        · subst h1
          obtain ⟨ts, hts⟩ := entryOk_title_str kvs "title_slide" htype (Or.inl rfl) hok
          refine ⟨some { layout := .titleLayout, title := ts,
                         subtitle := some ("A Presentation on " ++ topic),
                         bullets := [], image := none },
                  renderSlide_title env topic kvs htype ts hts, ?_⟩
          simp [isRecognized, entryTypeOf, htype]
        · by_cases h2 : t = "overview_slide" ∨ t = "conclusion_slide"
          · obtain ⟨ts, hts⟩ := entryOk_title_str kvs t htype (by tauto) hok
            obtain ⟨l, ls, hl, hls⟩ := entryOk_points_iter kvs t htype (by tauto) hok
            refine ⟨some { layout := .titleAndContent, title := ts, subtitle := none,
                           bullets := mkBullets 15 ls, image := none },
                    renderSlide_bulleted env topic kvs t htype h2 ts hts l ls hl hls, ?_⟩
            simp only [isRecognized, entryTypeOf, htype]
            rw [if_pos (by tauto)]
            rfl
          · by_cases h3 : t = "key_point_slide"
            · subst h3
              obtain ⟨ts, hts⟩ :=
                entryOk_title_str kvs "key_point_slide" htype (by tauto) hok
              obtain ⟨l, ls, hl, hls⟩ :=
                entryOk_points_iter kvs "key_point_slide" htype (by tauto) hok
              have h := renderSlide_keypoint env topic kvs htype ts hts l ls hl hls
              cases himg : get_image_for_slide env
                  ((lookupKV kvs "image_query").getD (.str topic)) with
              | some png =>
                rw [himg] at h
                refine ⟨_, h, ?_⟩
                simp only [isRecognized, entryTypeOf, htype]
                rw [if_pos (by tauto)]
                rfl
              | none =>
                rw [himg] at h
                refine ⟨_, h, ?_⟩
                simp only [isRecognized, entryTypeOf, htype]
                rw [if_pos (by tauto)]
                rfl
            · refine ⟨none, ?_, ?_⟩
              · simp [renderSlide, htype, h1, if_neg h2, h3]
              · simp only [isRecognized, entryTypeOf, htype]
                rw [if_neg (by tauto)]
                rfl

/-- On a list of well-formed entries the loop never raises and collects, in
input order, exactly the slides the entries contribute. -/
theorem buildSlides_eq (env : PipelineEnv) (topic : String) :
    ∀ entries : List JValue, (∀ e ∈ entries, entryOk e = true) →
      buildSlides env topic entries =
        .ok (entries.filterMap (renderedSlideOpt env topic)) := by
  intro entries h
  induction entries with
  | nil => rfl
  | cons e es ih =>
    obtain ⟨r, hr, _⟩ := renderSlide_ok_of_entryOk env topic e (h e (by simp))
    have hrest := ih (fun x hx => h x (by simp [hx]))
    have hro : renderedSlideOpt env topic e = r := by
      simp [renderedSlideOpt, hr]
    cases r with
    | none => simp [buildSlides, hr, hrest, List.filterMap_cons, hro]
    | some s => simp [buildSlides, hr, hrest, List.filterMap_cons, hro]

/-- Under well-formedness, the number of collected slides is the number of
recognized-type entries. -/
theorem filterMap_length_countP (env : PipelineEnv) (topic : String) :
    ∀ entries : List JValue, (∀ e ∈ entries, entryOk e = true) →
      (entries.filterMap (renderedSlideOpt env topic)).length =
        entries.countP isRecognized := by
  intro entries h
  induction entries with
  | nil => rfl
  | cons e es ih =>
    obtain ⟨r, hr, hiso⟩ := renderSlide_ok_of_entryOk env topic e (h e (by simp))
    have hrest := ih (fun x hx => h x (by simp [hx]))
    have hro : renderedSlideOpt env topic e = r := by
      simp [renderedSlideOpt, hr]
    cases r with
    | none =>
      simp only [Option.isSome] at hiso
      simp [List.filterMap_cons, hro, List.countP_cons, ← hiso, hrest]
    | some s =>
      simp only [Option.isSome] at hiso
      simp [List.filterMap_cons, hro, List.countP_cons, ← hiso, hrest]

/-- A concrete environment in which every external collaborator fails (keys
are configured, so the Google branches are attempted). -/
def envA : PipelineEnv :=
  { ddgResp := fun _ => .error ()
    googleKeysPlaceholder := false
    googleResp := fun _ => .error ()
    genContentResp := none
    genEnrichResp := none
    jsonParse := fun _ => none
    imgSearchResp := fun _ => .error ()
    imgDownload := fun _ => .error ()
    imgDecodeEncode := fun _ => .error ()
    savePptx := fun slides => [slides.length]
    writeFails := false }

/-- Claim C1, counterexamples.  The claim quantifies over every content
value whose `slides` entry is a list and promises one rendered slide per
recognized-type entry, with other entries skipped and no failure; but
`create_powerpoint_deck` raises on each of these four in-scope contents: a
list entry that is not a dict makes `slide_data.get('type')` raise
`AttributeError`; a dict entry with a non-string `title`, or a non-string
element in `points`, makes the python-pptx `.text` setter raise; and a
non-iterable `points` value makes `for point in points` raise `TypeError`.
Each failure mode forces one hypothesis of the amended claim. -/
theorem assemble_errors_on_ill_typed_entries :
    create_powerpoint_deck envA (.obj [("slides", .arr [.str "x"])]) "Topic" =
      .error () ∧
    create_powerpoint_deck envA (.obj [("slides", .arr
      [.obj [("type", .str "title_slide"), ("title", .num 5)]])]) "Topic" =
      .error () ∧
    create_powerpoint_deck envA (.obj [("slides", .arr
      [.obj [("type", .str "overview_slide"), ("points", .arr [.num 5])]])]) "Topic" =
      .error () ∧
    create_powerpoint_deck envA (.obj [("slides", .arr
      [.obj [("type", .str "overview_slide"), ("points", .num 5)]])]) "Topic" =
      .error () :=
  ⟨rfl, rfl, rfl, rfl⟩

/-- Claim C1, amended: for every content value whose `slides` entry is a
list of dict entries — each recognized-type entry's `title`, when present,
a string, and each bulleted recognized-type entry's `points`, when present,
iterable with only string elements — assembly returns a deck holding, in
input order, exactly one rendered slide per entry with a recognized type;
entries of any other or missing type contribute no slide and cause no
failure, and the serialized stream is produced from the complete slide list
once, after the loop. -/
theorem assemble_one_slide_per_recognized_entry (env : PipelineEnv) (topic : String)
    (kvs : List (String × JValue)) (entries : List JValue)
    (hs : lookupKV kvs "slides" = some (.arr entries))
    (hok : ∀ e ∈ entries, entryOk e = true) :
    ∃ slides : List RenderedSlide,
      create_powerpoint_deck env (.obj kvs) topic =
        .ok (some { slides := slides, stream := env.savePptx slides }) ∧
      slides = entries.filterMap (renderedSlideOpt env topic) ∧
      slides.length = entries.countP isRecognized ∧
      ∀ e ∈ entries, isRecognized e = false → renderSlide env topic e = .ok none := by
  refine ⟨entries.filterMap (renderedSlideOpt env topic), ?_, rfl, ?_, ?_⟩
  · simp [create_powerpoint_deck, pyContains, hs, pySubscript,
      buildSlides_eq env topic entries hok]
  · exact filterMap_length_countP env topic entries hok
  · intro e he hrec
    obtain ⟨r, hr, hiso⟩ := renderSlide_ok_of_entryOk env topic e (hok e he)
    cases r with
    | none => exact hr
    | some s => rw [hrec] at hiso; simp at hiso

/-- Concrete content for the C1 witness: a title slide, an entry with an
unrecognized type, and an overview slide. -/
def exEntries : List JValue :=
  [ .obj [("type", .str "title_slide"), ("title", .str "T")],
    .obj [("type", .str "mystery_slide")],
    .obj [("type", .str "overview_slide"), ("points", .arr [.str "p1", .str "p2"])] ]

theorem assemble_one_slide_per_recognized_entry_witness :
    ∃ slides : List RenderedSlide,
      create_powerpoint_deck envA (.obj [("slides", .arr exEntries)]) "Topic" =
        .ok (some { slides := slides, stream := envA.savePptx slides }) ∧
      slides = exEntries.filterMap (renderedSlideOpt envA "Topic") ∧
      slides.length = exEntries.countP isRecognized ∧
      ∀ e ∈ exEntries, isRecognized e = false → renderSlide envA "Topic" e = .ok none :=
  assemble_one_slide_per_recognized_entry envA "Topic" [("slides", .arr exEntries)]
    exEntries rfl (by decide)

/-- Claim C2: when the content dict has no `slides` key, or its `slides`
value is not a list, `create_powerpoint_deck` returns `None` (no deck at
all, so no partial deck), and the top level, given that `None`, writes no
artifact file. -/
theorem assemble_missing_or_nonlist_slides_returns_none (env : PipelineEnv)
    (topic : String) (kvs : List (String × JValue))
    (h : lookupKV kvs "slides" = none ∨
         ∃ v, lookupKV kvs "slides" = some v ∧ v.isArr = false) :
    create_powerpoint_deck env (.obj kvs) topic = .ok none ∧
      ∀ w : Bool, mainSaveStep w none = none := by
  refine ⟨?_, fun w => rfl⟩
  rcases h with h | ⟨v, hv, hna⟩
  · simp [create_powerpoint_deck, pyContains, h]
  · cases v with
    | arr xs => simp [JValue.isArr] at hna
    | null => simp [create_powerpoint_deck, pyContains, pySubscript, hv]
    | bool b => simp [create_powerpoint_deck, pyContains, pySubscript, hv]
    | num n => simp [create_powerpoint_deck, pyContains, pySubscript, hv]
    | str s => simp [create_powerpoint_deck, pyContains, pySubscript, hv]
    | obj o => simp [create_powerpoint_deck, pyContains, pySubscript, hv]

theorem assemble_missing_or_nonlist_slides_returns_none_witness :
    create_powerpoint_deck envA (.obj [("slides", .str "oops")]) "Topic" = .ok none ∧
      ∀ w : Bool, mainSaveStep w none = none :=
  assemble_missing_or_nonlist_slides_returns_none envA "Topic"
    [("slides", .str "oops")] (Or.inr ⟨.str "oops", rfl, rfl⟩)

/-- Claim C5: for every topic (and independently of the web context) the
plan is a total function returning exactly 7 entries with the fixed type
sequence; the four key-point purposes embed the topic with first, second,
third and fourth framing, and the other three purposes are fixed constants. -/
theorem plan_fixed_seven_slide_shape (topic web_context : String) :
    ∃ items : List JValue,
      create_presentation_plan topic web_context = .obj [("slides", .arr items)] ∧
      items.length = 7 ∧
      items.map entryTypeOf =
        [some (.str "title_slide"), some (.str "overview_slide"),
         some (.str "key_point_slide"), some (.str "key_point_slide"),
         some (.str "key_point_slide"), some (.str "key_point_slide"),
         some (.str "conclusion_slide")] ∧
      items.map entryPurposeOf =
        [some (.str "A compelling title for the presentation."),
         some (.str "An overview describing key talking points."),
         some (.str ("The first key point or trend about " ++ topic ++ ".")),
         some (.str ("The second key point or argument about " ++ topic ++ ".")),
         some (.str ("The third key point or trend about " ++ topic ++ ".")),
         some (.str ("The fourth key point or argument about " ++ topic ++ ".")),
         some (.str "Give Concluding Points.")] ∧
      create_presentation_plan topic web_context = create_presentation_plan topic "" :=
  ⟨_, rfl, rfl, rfl, rfl, rfl⟩

theorem mkBullets_fontSize (n : Nat) (pts : List String) :
    ∀ b ∈ mkBullets n pts, b.fontSizePt = n := by
  intro b hb
  simp only [mkBullets, List.mem_map] at hb
  obtain ⟨p, _, rfl⟩ := hb
  rfl

theorem pySubscript_cons_zero (x : JValue) (xs : List JValue) :
    pySubscript (.arr (x :: xs)) (.num 0) = .ok x := by
  have hc : (0 : Int) ≤ 0 ∧ (0 : Int) < ((x :: xs).length : Int) := by
    refine ⟨le_refl 0, ?_⟩
    simp only [List.length_cons]
    omega
  simp [pySubscript, hc]

/-- Claim C9: for a well-formed dict entry of recognized type, assembly is
total over the missing content fields — with no `title` key the slide is
rendered with the title text `Untitled Slide`, and with no `points` key it
is rendered with no bullet paragraphs; neither missing key makes the
rendering step raise. -/
theorem assemble_defaults_missing_title_and_points (env : PipelineEnv)
    (topic : String) (kvs : List (String × JValue)) (t : String)
    (ht : lookupKV kvs "type" = some (.str t))
    (hrec : t = "title_slide" ∨ t = "overview_slide" ∨ t = "conclusion_slide"
            ∨ t = "key_point_slide")
    (hok : entryOk (.obj kvs) = true) :
    (lookupKV kvs "title" = none →
      ∃ s, renderSlide env topic (.obj kvs) = .ok (some s) ∧
        s.title = "Untitled Slide") ∧
    (lookupKV kvs "points" = none →
      ∃ s, renderSlide env topic (.obj kvs) = .ok (some s) ∧ s.bullets = []) := by
  constructor
  · intro htitle
    have hts : asStr ((lookupKV kvs "title").getD (.str "Untitled Slide")) =
        .ok "Untitled Slide" := by rw [htitle]; rfl
    rcases hrec with rfl | h2 | h2 | rfl
    · exact ⟨_, renderSlide_title env topic kvs ht _ hts, rfl⟩
    · obtain ⟨l, ls, hl, hls⟩ := entryOk_points_iter kvs t ht (by tauto) hok
      exact ⟨_, renderSlide_bulleted env topic kvs t ht (by tauto) _ hts l ls hl hls,
             rfl⟩
    · obtain ⟨l, ls, hl, hls⟩ := entryOk_points_iter kvs t ht (by tauto) hok
      exact ⟨_, renderSlide_bulleted env topic kvs t ht (by tauto) _ hts l ls hl hls,
             rfl⟩
    · obtain ⟨l, ls, hl, hls⟩ :=
        entryOk_points_iter kvs "key_point_slide" ht (by tauto) hok
      have h := renderSlide_keypoint env topic kvs ht _ hts l ls hl hls
      cases himg : get_image_for_slide env
          ((lookupKV kvs "image_query").getD (.str topic)) with
      | some png => rw [himg] at h; exact ⟨_, h, rfl⟩
      | none => rw [himg] at h; exact ⟨_, h, rfl⟩
  · intro hpts
    obtain ⟨ts, hts⟩ := entryOk_title_str kvs t ht hrec hok
    have hl : pyIter ((lookupKV kvs "points").getD (.arr [])) = .ok [] := by
      rw [hpts]; rfl
    have hls : mapExcept asStr ([] : List JValue) = .ok [] := rfl
    rcases hrec with rfl | h2 | h2 | rfl
    · exact ⟨_, renderSlide_title env topic kvs ht ts hts, rfl⟩
    · exact ⟨_, renderSlide_bulleted env topic kvs t ht (by tauto) ts hts [] [] hl hls,
             rfl⟩
    · exact ⟨_, renderSlide_bulleted env topic kvs t ht (by tauto) ts hts [] [] hl hls,
             rfl⟩
    · have h := renderSlide_keypoint env topic kvs ht ts hts [] [] hl hls
      cases himg : get_image_for_slide env
          ((lookupKV kvs "image_query").getD (.str topic)) with
      | some png => rw [himg] at h; exact ⟨_, h, rfl⟩
      | none => rw [himg] at h; exact ⟨_, h, rfl⟩

theorem assemble_defaults_missing_title_and_points_witness :
    (∃ s, renderSlide envA "Topic" (.obj [("type", .str "overview_slide")]) =
        .ok (some s) ∧ s.title = "Untitled Slide") ∧
    (∃ s, renderSlide envA "Topic" (.obj [("type", .str "overview_slide")]) =
        .ok (some s) ∧ s.bullets = []) :=
  ⟨(assemble_defaults_missing_title_and_points envA "Topic"
      [("type", .str "overview_slide")] "overview_slide" rfl
      (Or.inr (Or.inl rfl)) (by decide)).1 rfl,
   (assemble_defaults_missing_title_and_points envA "Topic"
      [("type", .str "overview_slide")] "overview_slide" rfl
      (Or.inr (Or.inl rfl)) (by decide)).2 rfl⟩

/-- Claim C4: on a `key_point_slide` entry without an `image_query` field
the image acquisition uses the pipeline's topic string as the search
query — the rendered slide's image is exactly the result of the image
sub-protocol run on the topic. -/
theorem image_query_absent_falls_back_to_topic (env : PipelineEnv)
    (topic : String) (kvs : List (String × JValue))
    (ht : lookupKV kvs "type" = some (.str "key_point_slide"))
    (hq : lookupKV kvs "image_query" = none)
    (hok : entryOk (.obj kvs) = true) :
    ∃ s, renderSlide env topic (.obj kvs) = .ok (some s) ∧
      s.image = get_image_for_slide env (.str topic) := by
  obtain ⟨ts, hts⟩ := entryOk_title_str kvs "key_point_slide" ht (by tauto) hok
  obtain ⟨l, ls, hl, hls⟩ := entryOk_points_iter kvs "key_point_slide" ht (by tauto) hok
  have h := renderSlide_keypoint env topic kvs ht ts hts l ls hl hls
  rw [hq] at h
  simp only [Option.getD] at h
  cases himg : get_image_for_slide env (.str topic) with
  | some png => rw [himg] at h; exact ⟨_, h, rfl⟩
  | none => rw [himg] at h; exact ⟨_, h, rfl⟩

theorem image_query_absent_falls_back_to_topic_witness :
    ∃ s, renderSlide envA "Topic" (.obj [("type", .str "key_point_slide")]) =
      .ok (some s) ∧ s.image = get_image_for_slide envA (.str "Topic") :=
  image_query_absent_falls_back_to_topic envA "Topic"
    [("type", .str "key_point_slide")] rfl rfl (by decide)

/-- Claim C10: the fallback to the topic happens only when the
`image_query` key is absent — a present key holding an empty or null value
is passed verbatim to the image-search step instead of the topic. -/
theorem present_image_query_passed_verbatim (env : PipelineEnv)
    (topic : String) (kvs : List (String × JValue)) (v : JValue)
    (ht : lookupKV kvs "type" = some (.str "key_point_slide"))
    (hq : lookupKV kvs "image_query" = some v)
    (hv : v = .null ∨ v = .str "")
    (hok : entryOk (.obj kvs) = true) :
    ∃ s, renderSlide env topic (.obj kvs) = .ok (some s) ∧
      s.image = get_image_for_slide env v := by
  obtain ⟨ts, hts⟩ := entryOk_title_str kvs "key_point_slide" ht (by tauto) hok
  obtain ⟨l, ls, hl, hls⟩ := entryOk_points_iter kvs "key_point_slide" ht (by tauto) hok
  have h := renderSlide_keypoint env topic kvs ht ts hts l ls hl hls
  rw [hq] at h
  simp only [Option.getD] at h
  cases himg : get_image_for_slide env v with
  | some png => rw [himg] at h; exact ⟨_, h, rfl⟩
  | none => rw [himg] at h; exact ⟨_, h, rfl⟩

theorem present_image_query_passed_verbatim_witness :
    ∃ s, renderSlide envA "Topic"
        (.obj [("type", .str "key_point_slide"), ("image_query", .null)]) =
      .ok (some s) ∧ s.image = get_image_for_slide envA .null :=
  present_image_query_passed_verbatim envA "Topic"
    [("type", .str "key_point_slide"), ("image_query", .null)] .null
    rfl rfl (Or.inl rfl) (by decide)

/-- Environment whose image search replies without an `items` key. -/
def envU : PipelineEnv := { envA with imgSearchResp := fun _ => .ok (.obj []) }

/-- Environment whose image search replies with an empty `items` list. -/
def envV : PipelineEnv :=
  { envA with imgSearchResp := fun _ => .ok (.obj [("items", .arr [])]) }

/-- Environment whose image search succeeds but whose image download
raises. -/
def envB : PipelineEnv :=
  { envA with
    imgSearchResp := fun _ => .ok (.obj [("items", .arr [.obj [("link", .str "u")]])]) }

/-- Environment whose image download succeeds but whose decode/re-encode
step raises. -/
def envD : PipelineEnv :=
  { envB with
    imgDownload := fun _ => .ok [7]
    imgDecodeEncode := fun _ => .error () }

/-- Environment in which the Google keys still hold placeholders. -/
def envK : PipelineEnv := { envA with googleKeysPlaceholder := true }

/-- Claim C3: every failure mode of the image acquisition sub-protocol
(skipped keys, raised search call, missing or empty `items`, raised
download, raised decode/re-encode) yields no image stream; a
`key_point_slide` entry whose acquisition yields no stream is still
rendered, on the single-content layout with no image region and 18pt
bullets; and assembly of the surrounding deck still succeeds for every
behaviour of the image boundary — an image failure never raises out of
`create_powerpoint_deck`. -/
theorem key_point_image_failure_falls_back (env : PipelineEnv) (topic : String) :
    (∀ q, env.googleKeysPlaceholder = true → get_image_for_slide env q = none) ∧
    (∀ s, env.imgSearchResp s = .error () → get_image_for_slide env (.str s) = none) ∧
    (∀ s v, env.imgSearchResp s = .ok v → pyContains v "items" = .ok false →
      get_image_for_slide env (.str s) = none) ∧
    (∀ s kvs, env.imgSearchResp s = .ok (.obj kvs) →
      lookupKV kvs "items" = some (.arr []) →
      get_image_for_slide env (.str s) = none) ∧
    (∀ s kvs rest url, env.imgSearchResp s = .ok (.obj kvs) →
      lookupKV kvs "items" = some (.arr (.obj [("link", .str url)] :: rest)) →
      env.imgDownload url = .error () →
      get_image_for_slide env (.str s) = none) ∧
    (∀ s kvs rest url bts, env.imgSearchResp s = .ok (.obj kvs) →
      lookupKV kvs "items" = some (.arr (.obj [("link", .str url)] :: rest)) →
      env.imgDownload url = .ok bts → env.imgDecodeEncode bts = .error () →
      get_image_for_slide env (.str s) = none) ∧
    (∀ kvs, lookupKV kvs "type" = some (.str "key_point_slide") →
      entryOk (.obj kvs) = true →
      get_image_for_slide env ((lookupKV kvs "image_query").getD (.str topic)) = none →
      ∃ s, renderSlide env topic (.obj kvs) = .ok (some s) ∧
        s.layout = .titleAndContent ∧ s.image = none ∧
        ∀ b ∈ s.bullets, b.fontSizePt = 18) ∧
    (∀ kvsC entries, lookupKV kvsC "slides" = some (.arr entries) →
      (∀ e ∈ entries, entryOk e = true) →
      ∃ d, create_powerpoint_deck env (.obj kvsC) topic = .ok (some d)) := by
  refine ⟨?_, ?_, ?_, ?_, ?_, ?_, ?_, ?_⟩
  · intro q hk
    simp [get_image_for_slide, hk]
  · intro s h
    by_cases hk : env.googleKeysPlaceholder
    · simp [get_image_for_slide, hk]
    · simp [get_image_for_slide, hk, imgTry, asStr, h]
  · intro s v h1 h2
    by_cases hk : env.googleKeysPlaceholder
    · simp [get_image_for_slide, hk]
    · simp [get_image_for_slide, hk, imgTry, asStr, h1, h2]
  · intro s kvs h1 h2
    by_cases hk : env.googleKeysPlaceholder
    · simp [get_image_for_slide, hk]
    · have hcont : pyContains (.obj kvs) "items" = .ok true := by
        simp [pyContains, h2]
      have hsub : pySubscript (.obj kvs) (.str "items") = .ok (.arr []) := by
        simp [pySubscript, h2]
      simp [get_image_for_slide, hk, imgTry, asStr, h1, hcont, hsub, JValue.truthy]
  · intro s kvs rest url h1 h2 hdl
    by_cases hk : env.googleKeysPlaceholder
    · simp [get_image_for_slide, hk]
    · have hcont : pyContains (.obj kvs) "items" = .ok true := by
        simp [pyContains, h2]
      have hsub : pySubscript (.obj kvs) (.str "items") =
          .ok (.arr (JValue.obj [("link", .str url)] :: rest)) := by
        simp [pySubscript, h2]
      have hzero : pySubscript (.arr (JValue.obj [("link", .str url)] :: rest)) (.num 0) =
          .ok (.obj [("link", .str url)]) := pySubscript_cons_zero _ _
      have hlink : pySubscript (.obj [("link", JValue.str url)]) (.str "link") =
          .ok (.str url) := rfl
      simp [get_image_for_slide, hk, imgTry, asStr, h1, hcont, hsub, hzero, hlink,
        hdl, JValue.truthy]
  · intro s kvs rest url bts h1 h2 hdl hdec
    by_cases hk : env.googleKeysPlaceholder
    · simp [get_image_for_slide, hk]
    · have hcont : pyContains (.obj kvs) "items" = .ok true := by
        simp [pyContains, h2]
      have hsub : pySubscript (.obj kvs) (.str "items") =
          .ok (.arr (JValue.obj [("link", .str url)] :: rest)) := by
        simp [pySubscript, h2]
      have hzero : pySubscript (.arr (JValue.obj [("link", .str url)] :: rest)) (.num 0) =
          .ok (.obj [("link", .str url)]) := pySubscript_cons_zero _ _
      have hlink : pySubscript (.obj [("link", JValue.str url)]) (.str "link") =
          .ok (.str url) := rfl
      simp [get_image_for_slide, hk, imgTry, asStr, h1, hcont, hsub, hzero, hlink,
        hdl, hdec, JValue.truthy]
  · intro kvs ht hok himg
    obtain ⟨ts, hts⟩ := entryOk_title_str kvs "key_point_slide" ht (by tauto) hok
    obtain ⟨l, ls, hl, hls⟩ :=
      entryOk_points_iter kvs "key_point_slide" ht (by tauto) hok
    have h := renderSlide_keypoint env topic kvs ht ts hts l ls hl hls
    rw [himg] at h
    exact ⟨_, h, rfl, rfl, mkBullets_fontSize 18 ls⟩
  · intro kvsC entries hs hok
    refine ⟨{ slides := entries.filterMap (renderedSlideOpt env topic),
              stream := env.savePptx (entries.filterMap (renderedSlideOpt env topic)) }, ?_⟩
    simp [create_powerpoint_deck, pyContains, hs, pySubscript,
      buildSlides_eq env topic entries hok]

theorem key_point_image_failure_falls_back_witness :
    get_image_for_slide envK (.str "q") = none ∧
    get_image_for_slide envA (.str "q") = none ∧
    get_image_for_slide envU (.str "q") = none ∧
    get_image_for_slide envV (.str "q") = none ∧
    get_image_for_slide envB (.str "q") = none ∧
    get_image_for_slide envD (.str "q") = none ∧
    (∃ s, renderSlide envB "T" (.obj [("type", .str "key_point_slide")]) =
        .ok (some s) ∧ s.layout = .titleAndContent ∧ s.image = none ∧
        ∀ b ∈ s.bullets, b.fontSizePt = 18) ∧
    (∃ d, create_powerpoint_deck envB
        (.obj [("slides", .arr [.obj [("type", .str "key_point_slide")]])]) "T" =
      .ok (some d)) :=
  ⟨(key_point_image_failure_falls_back envK "T").1 (.str "q") rfl,
   (key_point_image_failure_falls_back envA "T").2.1 "q" rfl,
   (key_point_image_failure_falls_back envU "T").2.2.1 "q" (.obj []) rfl rfl,
   (key_point_image_failure_falls_back envV "T").2.2.2.1 "q" [("items", .arr [])] rfl rfl,
   (key_point_image_failure_falls_back envB "T").2.2.2.2.1 "q"
     [("items", .arr [.obj [("link", .str "u")]])] [] "u" rfl rfl rfl,
   (key_point_image_failure_falls_back envD "T").2.2.2.2.2.1 "q"
     [("items", .arr [.obj [("link", .str "u")]])] [] "u" [7] rfl rfl rfl rfl,
   (key_point_image_failure_falls_back envB "T").2.2.2.2.2.2.1
     [("type", .str "key_point_slide")] rfl (by decide) rfl,
   (key_point_image_failure_falls_back envB "T").2.2.2.2.2.2.2
     [("slides", .arr [.obj [("type", .str "key_point_slide")]])]
     [.obj [("type", .str "key_point_slide")]] rfl (by decide)⟩

/-- Environment in which the generation capability answers with unparseable
text for both the content and the enrichment calls. -/
def envE : PipelineEnv :=
  { envA with genContentResp := some "garbage", genEnrichResp := some "garbage" }

/-- Claim C6: when the image-query enrichment fails — the call raises, or
its reply does not parse as JSON — `add_image_queries_to_content` returns a
value field-for-field identical to its input content. -/
theorem enrich_failure_returns_input_unchanged (env : PipelineEnv) (content : JValue)
    (h : env.genEnrichResp = none ∨
         ∃ t, env.genEnrichResp = some t ∧ env.jsonParse (cleanResponse t) = none) :
    add_image_queries_to_content env content = content := by
  rcases h with h | ⟨t, ht, hp⟩
  · simp [add_image_queries_to_content, h]
  · simp [add_image_queries_to_content, ht, hp]

theorem enrich_failure_returns_input_unchanged_witness :
    add_image_queries_to_content envA (.str "c") = .str "c" ∧
    add_image_queries_to_content envE (.obj [("k", .null)]) = .obj [("k", .null)] :=
  ⟨enrich_failure_returns_input_unchanged envA (.str "c") (Or.inl rfl),
   enrich_failure_returns_input_unchanged envE (.obj [("k", .null)])
     (Or.inr ⟨"garbage", rfl, rfl⟩)⟩

/-- Claim C7: when the content-generation reply does not parse as JSON after
fence stripping, `generate_presentation_content` signals the failure by
returning `None`, and the pipeline then halts before assembly with no
artifact written — for every behaviour of the remaining collaborators. -/
theorem content_parse_failure_aborts_pipeline (env : PipelineEnv) (topic : String)
    (t : String) (hc : env.genContentResp = some t)
    (hp : env.jsonParse (cleanResponse t) = none) :
    (∀ web_context plan,
      generate_presentation_content env topic web_context plan = none) ∧
    mainRun env topic = .ok none := by
  have hg : ∀ wc plan, generate_presentation_content env topic wc plan = none := by
    intro wc plan
    simp [generate_presentation_content, hc, hp]
  refine ⟨hg, ?_⟩
  simp [mainRun, hg, create_presentation_plan, JValue.truthy]

theorem content_parse_failure_aborts_pipeline_witness :
    (∀ web_context plan,
      generate_presentation_content envE "Topic" web_context plan = none) ∧
    mainRun envE "Topic" = .ok none :=
  content_parse_failure_aborts_pipeline envE "Topic" "garbage" rfl rfl

theorem mapExcept_snippet_objs (gs : List String) :
    mapExcept (fun item => pyGetD item "snippet" (.str ""))
      (gs.map fun s => JValue.obj [("snippet", .str s)]) = .ok (gs.map .str) := by
  induction gs with
  | nil => rfl
  | cons a l ih =>
    have h : pyGetD (JValue.obj [("snippet", JValue.str a)]) "snippet" (.str "") =
        .ok (.str a) := rfl
    simp [mapExcept, h, ih]

theorem mapExcept_asStr_strs (l : List String) :
    mapExcept asStr (l.map .str) = .ok l := by
  induction l with
  | nil => rfl
  | cons a t ih => simp [mapExcept, asStr, ih]

/-- Claim C8: each backend that succeeds contributes the space-join of at
most its top 3 snippets; a failed backend contributes the empty string
instead of aborting aggregation; the aggregate is the trimmed space-joined
concatenation of the two contributions, and when both backends yield empty
or fail the result is exactly the sentinel `No specific web context
found.`. -/
theorem aggregate_joins_top_snippets_or_sentinel (env : PipelineEnv) (topic : String) :
    (∀ ds, env.ddgResp topic = .ok ds → ds ≠ [] →
      search_duckduckgo env topic = pyJoin " " (ds.take 3)) ∧
    (env.ddgResp topic = .error () → search_duckduckgo env topic = "") ∧
    (∀ gs : List String, env.googleKeysPlaceholder = false →
      env.googleResp topic =
        .ok (.obj [("items", .arr (gs.map fun s => .obj [("snippet", .str s)]))]) →
      gs ≠ [] → search_google env topic = pyJoin " " (gs.take 3)) ∧
    (env.googleKeysPlaceholder = true ∨ env.googleResp topic = .error () →
      search_google env topic = "") ∧
    (search_web_for_topic env topic =
      if pyStrip (search_duckduckgo env topic ++ " " ++ search_google env topic) = ""
      then "No specific web context found."
      else pyStrip (search_duckduckgo env topic ++ " " ++ search_google env topic)) ∧
    (search_duckduckgo env topic = "" → search_google env topic = "" →
      search_web_for_topic env topic = "No specific web context found.") := by
  refine ⟨?_, ?_, ?_, ?_, rfl, ?_⟩
  · intro ds h hne
    cases ds with
    | nil => exact absurd rfl hne
    | cons a t => simp [search_duckduckgo, h]
  · intro h
    simp [search_duckduckgo, h]
  · intro gs hk hg hne
    cases gs with
    | nil => exact absurd rfl hne
    | cons a t =>
      have hgd : pyGetD
          (.obj [("items", .arr (JValue.obj [("snippet", .str a)] ::
            (t.map fun s => JValue.obj [("snippet", .str s)])))])
          "items" (.arr []) =
          .ok (.arr (JValue.obj [("snippet", .str a)] ::
            (t.map fun s => JValue.obj [("snippet", .str s)]))) := rfl
      have hhead : pyGetD (JValue.obj [("snippet", JValue.str a)]) "snippet" (.str "") =
          .ok (.str a) := rfl
      have h2 : mapExcept asStr ((t.map JValue.str).take 2) = .ok (t.take 2) := by
        rw [← List.map_take]
        exact mapExcept_asStr_strs _
      simp [search_google, hk, googleTry, hg, hgd, pyIter, mapExcept, asStr,
        hhead, mapExcept_snippet_objs, h2]
  · rintro (hk | hg)
    · simp [search_google, hk]
    · by_cases hk : env.googleKeysPlaceholder
      · simp [search_google, hk]
      · simp [search_google, hk, googleTry, hg]
  · intro h1 h2
    simp only [search_web_for_topic, h1, h2]
    rw [if_pos (show pyStrip ("" ++ " " ++ "") = "" from rfl)]

/-- Environment whose DuckDuckGo backend returns four snippets and whose
Google keys are placeholders. -/
def envS1 : PipelineEnv :=
  { envA with
    ddgResp := fun _ => .ok ["a", "b", "c", "d"]
    googleKeysPlaceholder := true }

/-- Environment whose Google backend returns two snippet items. -/
def envS2 : PipelineEnv :=
  { envA with
    googleResp := fun _ => .ok (.obj [("items",
      .arr [.obj [("snippet", .str "g1")], .obj [("snippet", .str "g2")]])]) }

theorem aggregate_joins_top_snippets_or_sentinel_witness :
    search_duckduckgo envS1 "t" = pyJoin " " (["a", "b", "c", "d"].take 3) ∧
    search_duckduckgo envA "t" = "" ∧
    search_google envS2 "t" = pyJoin " " (["g1", "g2"].take 3) ∧
    search_google envS1 "t" = "" ∧
    search_web_for_topic envA "t" = "No specific web context found." :=
  ⟨(aggregate_joins_top_snippets_or_sentinel envS1 "t").1 ["a", "b", "c", "d"]
     rfl (by decide),
   (aggregate_joins_top_snippets_or_sentinel envA "t").2.1 rfl,
   (aggregate_joins_top_snippets_or_sentinel envS2 "t").2.2.1 ["g1", "g2"]
     rfl rfl (by decide),
   (aggregate_joins_top_snippets_or_sentinel envS1 "t").2.2.2.1 (Or.inl rfl),
   (aggregate_joins_top_snippets_or_sentinel envA "t").2.2.2.2.2 rfl rfl⟩
